import Mathlib

/-!
Shallow embedding of the transcript-resolution core of the
youtube-transcription-api repository, together with proofs of the frozen
claims about it.

The embedding follows the Python sources:
  * `app/services/retry.py`        — `is_retryable_error`, `retry_with_backoff`
  * `app/services/youtube.py`      — `classify_youtube_error`, `extract_video_id`
  * `app/services/transcription.py`— `transcribe_audio` result shaping
  * `app/services/transcript_service.py` — `get_transcript` 4-tier ladder and
    its aggregate error construction
  * `app/routers/transcribe.py`    — `transcribe_video` (parallel fast path)
    and the SSE `event_generator` (progressive partial/full transcription race)

External collaborators (yt-dlp, pytubefix, AssemblyAI, the YouTube caption
API, FFmpeg) are modelled as environment parameters recording the outcome of
each call; all orchestration logic is translated faithfully from the code.
-/

namespace YT

/-! ### String helpers (Python `in`, `.lower()`, `"; ".join`, `dict.fromkeys`) -/

/-- Python's `str.lower()` restricted to the ASCII mapping performed by
`Char.toLower`; every keyword the code matches against is ASCII. -/
def lowerStr (s : String) : String := String.mk (s.data.map Char.toLower)

/-- Substring containment on character lists: Python's `pat in s`. -/
def occursIn (pat : List Char) : List Char → Bool
  | [] => pat.isEmpty
  | c :: rest => pat.isPrefixOf (c :: rest) || occursIn pat rest

/-- `kw in msg.lower()` where `kw` is already lowercase, as everywhere in the
Python sources. -/
def hasKw (msg kw : String) : Bool := occursIn kw.data (lowerStr msg).data

/-- `"sep".join(parts)` -/
def joinSep (sep : String) : List String → String
  | [] => ""
  | [a] => a
  | a :: b :: rest => a ++ sep ++ joinSep sep (b :: rest)

/-- `list(dict.fromkeys(l))`: remove duplicates keeping the first occurrence
of each element, preserving order (transcript_service.py line 712). -/
def firstDedupAux {α : Type} [DecidableEq α] (seen : List α) : List α → List α
  | [] => []
  | a :: l => if a ∈ seen then firstDedupAux seen l else a :: firstDedupAux (a :: seen) l

def firstDedup {α : Type} [DecidableEq α] (l : List α) : List α := firstDedupAux [] l

/-- `sorted(set(l))` / `list(set(l)); l.sort()`: the ascending list of the
distinct elements of `l`. -/
def sortDedup (l : List String) : List String :=
  List.insertionSort (· ≤ ·) (firstDedup l)

/-! ### `app/services/retry.py` -/

/-- Keyword table of `is_retryable_error` (retry.py lines 30-42). -/
def retryableKeywords : List String :=
  ["429", "rate limit", "too many requests", "temporary", "timeout",
   "connection", "network", "server error", "502", "503", "504"]

/-- `is_retryable_error` (retry.py lines 19-43). -/
def isRetryableError (errorMsg : String) : Bool :=
  retryableKeywords.any (hasKw errorMsg)

/-- Loop body of the decorator returned by `retry_with_backoff`
(retry.py lines 83-125).  `attempts i` is the outcome of the `i`-th call of
the wrapped function; `rand i` is the value drawn by `random.random()` before
the `i`-th retry sleep.  Returns the final outcome, the list of computed
sleep delays, and the number of attempts performed.  The fuel-0 case models
the unreachable fall-through after the `for` loop (lines 122-125). -/
def retryAux {α : Type} (attempts : Nat → Except String α) (maxRetries : Nat)
    (maxDelay factor : ℚ) (jitter : Bool) (rand : Nat → ℚ) :
    Nat → Nat → ℚ → List ℚ → Except String α × List ℚ × Nat
  | 0, attempt, _, sleeps => (.error "Unexpected error in retry logic", sleeps, attempt)
  | fuel + 1, attempt, delay, sleeps =>
    match attempts attempt with
    | .ok v => (.ok v, sleeps, attempt + 1)
    | .error e =>
      if isRetryableError e then
        if maxRetries ≤ attempt then (.error e, sleeps, attempt + 1)
        else
          let base := min delay maxDelay
          let cur := if jitter then base * (1/2 + rand attempt) else base
          retryAux attempts maxRetries maxDelay factor jitter rand
            fuel (attempt + 1) (delay * factor) (sleeps ++ [cur])
      else (.error e, sleeps, attempt + 1)

/-- `retry_with_backoff(max_retries, initial_delay, max_delay, backoff_factor,
jitter)` applied to a wrapped function: the loop runs over
`range(max_retries + 1)`. -/
def retryWithBackoff {α : Type} (attempts : Nat → Except String α) (maxRetries : Nat)
    (initialDelay maxDelay factor : ℚ) (jitter : Bool) (rand : Nat → ℚ) :
    Except String α × List ℚ × Nat :=
  retryAux attempts maxRetries maxDelay factor jitter rand (maxRetries + 1) 0 initialDelay []

/-! ### `app/services/youtube.py` — error classification -/

/-- The exception classes returned by `classify_youtube_error`
(youtube.py lines 221-244).  `downloadError` is the default branch, the
spec's `Unknown` kind. -/
inductive YTErrorClass where
  | blocked
  | rateLimited
  | unavailable
  | cookiesRequired
  | notFound
  | downloadError
deriving DecidableEq

/-- `classify_youtube_error` (youtube.py lines 221-244). -/
def classifyYoutubeError (msg : String) : YTErrorClass :=
  if hasKw msg "sign in to confirm" || hasKw msg "bot" then .blocked
  else if hasKw msg "429" || hasKw msg "rate limit" || hasKw msg "too many" then .rateLimited
  else if hasKw msg "private" then .unavailable
  else if hasKw msg "age" || hasKw msg "login" || hasKw msg "cookies" then .cookiesRequired
  else if hasKw msg "not found" || hasKw msg "404" || hasKw msg "unavailable" then .notFound
  else .downloadError

/-! ### `app/services/youtube.py` — `extract_video_id` (lines 247-274)

The five URL regexes all have the shape
`^(https?://)?(www\.)?HOST([a-zA-Z0-9_-]{11})` and are tried with `re.match`
(anchored at the start only).  Optional groups are modelled by alternation
with backtracking, exactly like the regex engine: each alternative of
`(https?://)?` (greedy: "https://", then "http://", then nothing) is tried,
and within it each alternative of `(www\.)?`. -/

/-- The character class `[a-zA-Z0-9_-]`. -/
def isIdChar (c : Char) : Bool := c.isAlpha || c.isDigit || c == '_' || c == '-'

/-- Consume the literal `lit` at the front of `s`. -/
def stripLit (lit s : List Char) : Option (List Char) :=
  if lit.isPrefixOf s then some (s.drop lit.length) else none

/-- `([a-zA-Z0-9_-]{11})`: capture exactly 11 class characters (the rest of
the input is unconstrained, `re.match` does not anchor the end). -/
def takeId11 (s : List Char) : Option (List Char) :=
  let t := s.take 11
  if t.length = 11 ∧ t.all isIdChar then some t else none

/-- Try each literal alternative in order; on a literal that matches, run the
continuation, backtracking to the next alternative if it fails. -/
def altStrip (lits : List (List Char)) (s : List Char) (k : List Char → Option (List Char)) :
    Option (List Char) :=
  match lits with
  | [] => none
  | lit :: rest =>
    match stripLit lit s with
    | some r =>
      match k r with
      | some out => some out
      | none => altStrip rest s k
    | none => altStrip rest s k

/-- One URL pattern `^(https?://)?(www\.)?host([a-zA-Z0-9_-]{11})`. -/
def matchPattern (host : List Char) (s : List Char) : Option (List Char) :=
  altStrip ["https://".data, "http://".data, []] s fun r1 =>
    altStrip ["www.".data, []] r1 fun r2 =>
      (stripLit host r2).bind takeId11

/-- The host/path parts of `YOUTUBE_URL_PATTERNS` (youtube.py lines 247-253),
in order. -/
def urlHosts : List (List Char) :=
  ["youtube.com/watch?v=".data, "youtu.be/".data, "youtube.com/embed/".data,
   "youtube.com/v/".data, "youtube.com/shorts/".data]

def tryPatterns : List (List Char) → List Char → Option (List Char)
  | [], _ => none
  | h :: rest, s =>
    match matchPattern h s with
    | some v => some v
    | none => tryPatterns rest s

/-- `re.search(r"v=([a-zA-Z0-9_-]{11})", url)`: scan for the first position
where `v=` followed by 11 class characters matches. -/
def searchVeq : List Char → Option (List Char)
  | [] => none
  | c :: rest =>
    match (stripLit "v=".data (c :: rest)).bind takeId11 with
    | some v => some v
    | none => searchVeq rest

/-- `extract_video_id` (youtube.py lines 256-274) on character lists. -/
def extractVideoIdL (s : List Char) : Option (List Char) :=
  if s.length = 11 ∧ s.all isIdChar then some s
  else
    match tryPatterns urlHosts s with
    | some v => some v
    | none => if occursIn "v=".data s then searchVeq s else none

/-- `extract_video_id` on strings. -/
def extractVideoId (s : String) : Option String :=
  (extractVideoIdL s.data).map List.asString

/-! ### `app/services/transcription.py` — `transcribe_audio` result shaping -/

/-- An utterance as returned by AssemblyAI and rebuilt by the code
(`u.speaker`, `u.text`, `u.start`, `u.end`, `u.confidence`; `end` is renamed
`stop` because `end` is a Lean keyword). -/
structure Utt where
  speaker : String
  text : String
  start : Nat
  stop : Nat
  confidence : ℚ
deriving DecidableEq

/-- The transcript object handed back by `aai.Transcriber().transcribe`.
`statusError` models `transcript.status == aai.TranscriptStatus.error`.
An empty `utterances` list models both `None` and `[]` (both falsy in the
`if transcript.utterances:` test). -/
structure AaiTranscript where
  statusError : Bool
  error : Option String
  id : String
  text : String
  utterances : List Utt
  confidence : Option ℚ
  audio_duration : Option Nat
  language_code : Option String
deriving DecidableEq

/-- The dict returned by `transcribe_audio` (transcription.py lines 90-98). -/
structure TData where
  id : String
  text : String
  utterances : Option (List Utt)
  speakers : List String
  confidence : Option ℚ
  audio_duration : Option Nat
  language : Option String
deriving DecidableEq

/-- `transcribe_audio` (transcription.py lines 20-98) after the external
transcription call: error check, utterance formatting, speaker list
(`list(set(...))` + `.sort()` = `sortDedup`). -/
def transcribeAudio (t : AaiTranscript) : Except String TData :=
  if t.statusError then
    .error ("Transcription failed: " ++ t.error.getD "None")
  else
    .ok
      { id := t.id
        text := t.text
        utterances := if t.utterances.isEmpty then none else some t.utterances
        speakers := if t.utterances.isEmpty then [] else sortDedup (t.utterances.map Utt.speaker)
        confidence := t.confidence
        audio_duration := t.audio_duration
        language := t.language_code }

/-! ### `app/services/transcript_service.py` -/

/-- `TranscriptMethod` (transcript_service.py lines 47-53). -/
inductive TranscriptMethod where
  | youtubeCaptions
  | ytdlpAssemblyai
  | pytubefixAssemblyai
  | assemblyaiDirect
deriving DecidableEq

/-- `.value` of the enum members. -/
def TranscriptMethod.value : TranscriptMethod → String
  | .youtubeCaptions => "youtube_captions"
  | .ytdlpAssemblyai => "ytdlp_assemblyai"
  | .pytubefixAssemblyai => "pytubefix_assemblyai"
  | .assemblyaiDirect => "assemblyai_direct"

/-- `TranscriptResult` (transcript_service.py lines 56-67). -/
structure TR where
  method : TranscriptMethod
  text : String
  utterances : Option (List Utt)
  speakers : List String
  confidence : Option ℚ
  audio_duration : Option Nat
  language : Option String
  transcript_id : String
deriving DecidableEq

/-- `_fetch_with_assemblyai_direct` (transcript_service.py lines 463-548)
after the external call: the same error check and utterance/speaker shaping
as `transcribe_audio` (`sorted(set(...))` = `sortDedup`), packaged as a
`TranscriptResult` with the direct-URL method tag. -/
def fetchWithAssemblyaiDirect (t : AaiTranscript) : Except String TR :=
  if t.statusError then
    .error ("AssemblyAI direct transcription failed: " ++ t.error.getD "None")
  else
    .ok
      { method := .assemblyaiDirect
        text := t.text
        utterances := if t.utterances.isEmpty then none else some t.utterances
        speakers := if t.utterances.isEmpty then [] else sortDedup (t.utterances.map Utt.speaker)
        confidence := t.confidence
        audio_duration := t.audio_duration
        language := t.language_code
        transcript_id := t.id }

/-- The exception values that flow through the service and router, tagged by
the Python class that would be raised; the payload is `str(e)`.
`otherError cls msg` models any other `Exception` subclass. -/
inductive Exc where
  | transcriptsDisabled : String → Exc
  | noTranscriptFound : String → Exc
  | ytapiVideoUnavailable : String → Exc
  | videoNotFound : String → Exc
  | videoUnavailable : String → Exc
  | downloadErr : String → Exc
  | youtubeBlocked : String → Exc
  | youtubeRateLimit : String → Exc
  | youtubeCookiesRequired : String → Exc
  | transcriptionErr : String → Exc
  | noCaptionsAvailable : String → Exc
  | otherError : String → String → Exc
deriving DecidableEq

/-- `str(e)` -/
def Exc.msg : Exc → String
  | .transcriptsDisabled m => m
  | .noTranscriptFound m => m
  | .ytapiVideoUnavailable m => m
  | .videoNotFound m => m
  | .videoUnavailable m => m
  | .downloadErr m => m
  | .youtubeBlocked m => m
  | .youtubeRateLimit m => m
  | .youtubeCookiesRequired m => m
  | .transcriptionErr m => m
  | .noCaptionsAvailable m => m
  | .otherError _ m => m

/-- `type(e).__name__` -/
def Exc.clsName : Exc → String
  | .transcriptsDisabled _ => "TranscriptsDisabled"
  | .noTranscriptFound _ => "NoTranscriptFound"
  | .ytapiVideoUnavailable _ => "VideoUnavailable"
  | .videoNotFound _ => "VideoNotFoundError"
  | .videoUnavailable _ => "VideoUnavailableError"
  | .downloadErr _ => "DownloadError"
  | .youtubeBlocked _ => "YouTubeBlockedError"
  | .youtubeRateLimit _ => "YouTubeRateLimitError"
  | .youtubeCookiesRequired _ => "YouTubeCookiesRequiredError"
  | .transcriptionErr _ => "TranscriptionError"
  | .noCaptionsAvailable _ => "NoCaptionsAvailableError"
  | .otherError n _ => n

/-- `isinstance(e, (VideoNotFoundError, VideoUnavailableError))` — the two
youtube.py classes the router treats as fatal.  Note the youtube-transcript-api
class `VideoUnavailable` (`ytapiVideoUnavailable`) is a different class and is
NOT matched by this check. -/
def Exc.isYtFatal : Exc → Bool
  | .videoNotFound _ => true
  | .videoUnavailable _ => true
  | _ => false

/-- The tier labels of `get_transcript`. -/
inductive Tier where
  | t1
  | t2
  | t3
  | t4
deriving DecidableEq

/-- Outcome of each tier's underlying fetch (`_fetch_youtube_captions`,
`_fetch_with_ytdlp_assemblyai`, `_fetch_with_pytubefix_assemblyai`,
`_fetch_with_assemblyai_direct`); the external collaborators decide these. -/
structure TierEnv where
  tier1 : Except Exc TR
  tier2 : Except Exc TR
  tier3 : Except Exc TR
  tier4 : Except Exc TR

/-- `_is_innertube_context_error` (transcript_service.py lines 184-193) on an
already-lowercased message (its own `.lower()` is idempotent there). -/
def isInnertubeMsg (s : String) : Bool :=
  occursIn "innertube_context".data s.data || occursIn "extractor error".data s.data ||
  occursIn "failed to extract".data s.data || occursIn "initial player response".data s.data ||
  occursIn "player response".data s.data

/-- Recommendations derived from `tier1_error`
(transcript_service.py lines 681-685). -/
def tier1Recs (e : Exc) : List String :=
  let s := lowerStr e.msg
  if occursIn "blocking".data s.data || occursIn "ip".data s.data then
    ["YouTube is blocking requests from this IP"]
  else []

/-- Recommendations derived from `tier2_error` (lines 687-697). -/
def tier2Recs (e : Exc) : List String :=
  let s := lowerStr e.msg
  (if occursIn "sign in".data s.data || occursIn "bot".data s.data ||
      occursIn "player response".data s.data then
    ["YouTube is blocking yt-dlp requests"]
  else []) ++
  (if occursIn "cookies".data s.data || occursIn "age".data s.data then
    ["Update cookies.txt with fresh browser cookies"]
  else []) ++
  (if occursIn "429".data s.data || occursIn "rate".data s.data then
    ["Rate limited - try again later"]
  else []) ++
  (if isInnertubeMsg s then ["Update yt-dlp to the latest version"] else [])

/-- Recommendations derived from `tier3_error` (lines 699-703). -/
def tier3Recs (e : Exc) : List String :=
  let s := lowerStr e.msg
  if occursIn "bot".data s.data || occursIn "sign in".data s.data then
    ["YouTube is blocking pytubefix requests"]
  else []

/-- `error_parts` (lines 678-706); in the all-failed branch tiers 2-4 always
contribute, tier 1 only when it was attempted. -/
def aggregateParts (t1e : Option Exc) (e2 e3 e4 : Exc) : List String :=
  (match t1e with
   | none => []
   | some e => ["Captions: " ++ e.msg]) ++
  ["yt-dlp: " ++ e2.msg, "pytubefix: " ++ e3.msg, "Direct: " ++ e4.msg]

/-- The full `recommendations` list before deduplication (lines 678-703). -/
def allRecs (t1e : Option Exc) (e2 e3 : Exc) : List String :=
  (match t1e with
   | none => []
   | some e => tier1Recs e) ++ tier2Recs e2 ++ tier3Recs e3

/-- The message of the final `NoCaptionsAvailableError` (lines 708-719):
the semicolon-joined parts, the first-occurrence-deduplicated recommendations
appended when any exist, prefixed by the video id. -/
def aggregateMsg (vid : String) (t1e : Option Exc) (e2 e3 e4 : Exc) : String :=
  "Could not get transcript for video " ++ vid ++ ". " ++
    (if (allRecs t1e e2 e3).isEmpty then joinSep "; " (aggregateParts t1e e2 e3 e4)
     else
       joinSep "; " (aggregateParts t1e e2 e3 e4) ++ " [Recommendations: " ++
         joinSep "; " (firstDedup (allRecs t1e e2 e3)) ++ "]")

/-- Tiers 2-4 of `get_transcript` (transcript_service.py lines 615-719).
Every exception class a tier can raise is caught (lines 625-636, 648-659,
670-675) and recorded, and control falls through to the next tier; only when
tier 4 also fails is the aggregate `NoCaptionsAvailableError` raised.  The
second component records which tiers were invoked, in order. -/
def runSlowTiers (vid : String) (t1e : Option Exc) (pre : List Tier) (env : TierEnv) :
    Except Exc TR × List Tier :=
  match env.tier2 with
  | .ok r => (.ok r, pre ++ [.t2])
  | .error e2 =>
    match env.tier3 with
    | .ok r => (.ok r, pre ++ [.t2, .t3])
    | .error e3 =>
      match env.tier4 with
      | .ok r => (.ok r, pre ++ [.t2, .t3, .t4])
      | .error e4 =>
        (.error (.noCaptionsAvailable (aggregateMsg vid t1e e2 e3 e4)), pre ++ [.t2, .t3, .t4])

/-- `get_transcript` (transcript_service.py lines 551-719).  Tier 1 catches
every exception (lines 603-611) and continues; `prefer_diarization` skips
tier 1 entirely. -/
def getTranscript (url : String) (preferDiarization : Bool) (env : TierEnv) :
    Except Exc TR × List Tier :=
  match extractVideoId url with
  | none => (.error (.videoNotFound "Invalid YouTube URL format"), [])
  | some vid =>
    if preferDiarization then runSlowTiers vid none [] env
    else
      match env.tier1 with
      | .ok r => (.ok r, [.t1])
      | .error e1 => runSlowTiers vid (some e1) [.t1] env

/-! ### `app/routers/transcribe.py` — `transcribe_video` (lines 52-221) -/

/-- The metadata dicts produced by `_get_metadata_via_oembed` /
`download_audio` (the fields the router reads). -/
structure Metadata where
  video_id : String
  title : String
  channel_name : String
  thumbnail : String
  duration : Nat
deriving DecidableEq

/-- The synthesized minimal metadata record (transcribe.py lines 101-107 and
144-150): id plus placeholder title/author and the derived thumbnail URL. -/
def minimalMeta (vid : String) (dur : Nat) : Metadata :=
  { video_id := vid
    title := "Unknown"
    channel_name := "Unknown"
    thumbnail := "https://img.youtube.com/vi/" ++ vid ++ "/maxresdefault.jpg"
    duration := dur }

/-- Python's `a or b` on `result.audio_duration or metadata.get("duration")`:
`None` and `0` are falsy. -/
def orDur (a : Option Nat) (b : Nat) : Nat :=
  match a with
  | some n => if n = 0 then b else n
  | none => b

/-- `TranscriptData` of the response schema. -/
structure TranscriptPayload where
  id : String
  text : String
  utterances : Option (List Utt)
  speakers : List String
  confidence : Option ℚ
  audio_duration : Nat
  language : Option String
  method : String
deriving DecidableEq

/-- `TranscribeResponseData`. -/
structure RespData where
  video_id : String
  title : String
  author : String
  thumbnail : String
  transcript : TranscriptPayload
deriving DecidableEq

/-- `TranscribeResponse`. -/
structure Resp where
  success : Bool
  error : Option String
  data : Option RespData
deriving DecidableEq

/-- Environment of one `transcribe_video` call: outcomes of the parallel
oEmbed and Tier-1 caption calls, and of the tiers used by the slow path. -/
structure TranscribeEnv where
  oembed : Except Exc Metadata
  captions : Except Exc TR
  tiers : TierEnv

/-- The oEmbed outcome as the router's `oembed_metadata` variable
(transcribe.py lines 88-92). -/
def exceptToOption (o : Except Exc Metadata) : Option Metadata :=
  match o with
  | .ok m => some m
  | .error _ => none

/-- `isinstance(e, YouTubeError)` for the router's outer handler. -/
def Exc.isYouTubeFamily : Exc → Bool
  | .videoNotFound _ => true
  | .videoUnavailable _ => true
  | .downloadErr _ => true
  | .youtubeBlocked _ => true
  | .youtubeRateLimit _ => true
  | .youtubeCookiesRequired _ => true
  | _ => false

/-- Fast-path metadata merge (transcribe.py lines 101-107): oEmbed metadata
when available, otherwise the synthesized minimal record with
`duration = result.audio_duration or 0`. -/
def resolveFastMeta (mdOpt : Option Metadata) (vid : String) (r : TR) : Metadata :=
  mdOpt.getD (minimalMeta vid (r.audio_duration.getD 0))

/-- Fast-path response body (lines 115-130); `utterances` is hard-coded
`None` there. -/
def fastRespData (md : Metadata) (r : TR) : RespData :=
  { video_id := md.video_id
    title := md.title
    author := md.channel_name
    thumbnail := md.thumbnail
    transcript :=
      { id := r.transcript_id
        text := r.text
        utterances := none
        speakers := r.speakers
        confidence := r.confidence
        audio_duration := orDur r.audio_duration md.duration
        language := r.language
        method := r.method.value } }

/-- Slow-path response body (lines 177-207). -/
def slowRespData (md : Metadata) (r : TR) : RespData :=
  { video_id := md.video_id
    title := md.title
    author := md.channel_name
    thumbnail := md.thumbnail
    transcript :=
      { id := r.transcript_id
        text := r.text
        utterances := r.utterances
        speakers := r.speakers
        confidence := r.confidence
        audio_duration := orDur r.audio_duration md.duration
        language := r.language
        method := r.method.value } }

/-- `transcribe_video` after the oEmbed check (transcribe.py lines 97-209):
fast path on caption success, otherwise tiers 2-4 via
`get_transcript(prefer_diarization=True)`. -/
def transcribeAfterMeta (url vid : String) (mdOpt : Option Metadata) (env : TranscribeEnv) :
    Resp :=
  match env.captions with
  | .ok r => ⟨true, none, some (fastRespData (resolveFastMeta mdOpt vid r) r)⟩
  | .error ce =>
    let md := mdOpt.getD (minimalMeta vid 0)
    match getTranscript url true env.tiers with
    | (.ok r, _) => ⟨true, none, some (slowRespData md r)⟩
    | (.error e, _) =>
      if e.isYtFatal then ⟨false, some e.msg, none⟩
      else
        match e with
        | .noCaptionsAvailable m =>
          ⟨false,
           some (m ++ "; Fast-path Captions: " ++ ce.clsName ++ ": " ++ ce.msg), none⟩
        | _ =>
          if e.isYouTubeFamily then ⟨false, some ("YouTube error: " ++ e.msg), none⟩
          else ⟨false, some ("Unexpected error: " ++ e.msg), none⟩

/-- `transcribe_video` (transcribe.py lines 52-221).  The oEmbed outcome is
inspected FIRST (lines 87-95): a `VideoNotFoundError`/`VideoUnavailableError`
from oEmbed returns a failure response immediately, before the caption
outcome is examined. -/
def transcribeVideo (url : String) (env : TranscribeEnv) : Resp :=
  match extractVideoId url with
  | none => ⟨false, some "Invalid YouTube URL format", none⟩
  | some vid =>
    match env.oembed with
    | .error e =>
      if e.isYtFatal then ⟨false, some e.msg, none⟩
      else transcribeAfterMeta url vid none env
    | .ok m => transcribeAfterMeta url vid (some m) env

/-! ### `app/routers/transcribe.py` — SSE `event_generator` (lines 238-549) -/

/-- `PARTIAL_THRESHOLD_SECS` (line 42). -/
def partThresholdSecs : Nat := 150

/-- `PARTIAL_DURATION_SECS` (line 44). -/
def partDurationSecs : Nat := 60

/-- The server-sent events the generator can yield. -/
inductive SSEEvent where
  | errorEv (msg phase : String)
  | metadataEv (video_id title author thumbnail : String) (duration : Nat)
  | partEv (text : String) (audio_duration : Option Nat)
  | completeEv (video_id transcript_id text method : String)
deriving DecidableEq

def SSEEvent.isPart : SSEEvent → Bool
  | .partEv _ _ => true
  | _ => false

def SSEEvent.isComplete : SSEEvent → Bool
  | .completeEv _ _ _ _ => true
  | _ => false

def SSEEvent.isError : SSEEvent → Bool
  | .errorEv _ _ => true
  | _ => false

/-- Which of the two transcription tasks the first
`asyncio.wait(..., FIRST_COMPLETED)` reports as done. -/
inductive FirstDone where
  | partSide
  | fullSide
  | bothSides
deriving DecidableEq

/-- Environment of one streaming request: outcomes of every external call the
generator can make.  `ytdlp`/`pytubefix` successes carry the download
metadata (the audio path itself is irrelevant to the control flow);
`partT`/`fullT` are the outcomes of `transcribe_audio` on the trimmed clip
and on the full audio. -/
structure StreamEnv where
  url : String
  oembed : Except Exc Metadata
  captions : Except Exc TR
  ytdlp : Except Exc Metadata
  pytubefix : Except Exc Metadata
  direct : Except Exc TR
  trim : Except String Unit
  firstDone : FirstDone
  partT : Except String TData
  fullT : Except String TData

/-- `str(e)` of the `TypeError` raised by
`result.get("audio_duration", 0) <= PARTIAL_DURATION_SECS + 10` (line 454)
when the dict holds `None`; it is caught by the generator's outer handler
(lines 543-545). -/
def typeErrMsg : String :=
  "'<=' not supported between instances of 'NoneType' and 'int'"

def completeFromTD (md : Metadata) (method : String) (d : TData) : SSEEvent :=
  .completeEv md.video_id d.id d.text method

def completeFromTR (md : Metadata) (r : TR) : SSEEvent :=
  .completeEv md.video_id r.transcript_id r.text r.method.value

/-- The full-only transcription branch (lines 489-514): one
`transcribe_audio` call, an error event on failure, the complete event on
success.  Second component counts `transcribe_audio` invocations. -/
def fullOnlyEvents (md : Metadata) (method : String) (fullT : Except String TData) :
    List SSEEvent × Nat :=
  match fullT with
  | .error m => ([.errorEv m "transcription"], 1)
  | .ok d => ([completeFromTD md method d], 1)

/-- Lines 459-488: after the first wait classified the done results into
`partial_result`/`full_result`, emit the partial event when only the partial
side is present, then await the pending task (whose outcome, on success,
unconditionally becomes `full_result`, line 479), and finish. -/
def afterFirstWait (md : Metadata) (method : String) (pRes fRes : Option TData)
    (pending : Option (Except String TData)) : List SSEEvent × Nat :=
  let pe : List SSEEvent :=
    match pRes, fRes with
    | some p, none => [.partEv p.text p.audio_duration]
    | _, _ => []
  match pending with
  | some out =>
    match out with
    | .error m => (pe ++ [.errorEv m "transcription"], 2)
    | .ok d => (pe ++ [completeFromTD md method d], 2)
  | none =>
    match fRes with
    | none => (pe ++ [.errorEv "Transcription failed" "transcription"], 2)
    | some d => (pe ++ [completeFromTD md method d], 2)

/-- Result classification of the first wait's loop (lines 447-457): a failed
task is skipped; a successful result goes to the partial slot when its
reported duration is at most `PARTIAL_DURATION_SECS + 10`, else to the full
slot; a `None` duration raises `TypeError`. -/
def classInto (acc : Option TData × Option TData) (d : TData) :
    Option (Option TData × Option TData) :=
  match d.audio_duration with
  | none => none
  | some n =>
    some (if n ≤ partDurationSecs + 10 then (some d, acc.2) else (acc.1, some d))

/-- The partial/full race (lines 421-488).  In the `bothSides` case the done
set is iterated partial-then-full (Python iterates a set; when the two
results classify into different slots — the only situation the claims touch —
the order is irrelevant). -/
def raceEvents (md : Metadata) (method : String) (env : StreamEnv) : List SSEEvent × Nat :=
  match env.firstDone with
  | .partSide =>
    match env.partT with
    | .error _ => afterFirstWait md method none none (some env.fullT)
    | .ok d =>
      match classInto (none, none) d with
      | none => ([.errorEv typeErrMsg "transcription"], 2)
      | some acc => afterFirstWait md method acc.1 acc.2 (some env.fullT)
  | .fullSide =>
    match env.fullT with
    | .error _ => afterFirstWait md method none none (some env.partT)
    | .ok d =>
      match classInto (none, none) d with
      | none => ([.errorEv typeErrMsg "transcription"], 2)
      | some acc => afterFirstWait md method acc.1 acc.2 (some env.partT)
  | .bothSides =>
    match env.partT with
    | .error _ =>
      match env.fullT with
      | .error _ => afterFirstWait md method none none none
      | .ok d =>
        match classInto (none, none) d with
        | none => ([.errorEv typeErrMsg "transcription"], 2)
        | some acc => afterFirstWait md method acc.1 acc.2 none
    | .ok d1 =>
      match classInto (none, none) d1 with
      | none => ([.errorEv typeErrMsg "transcription"], 2)
      | some acc1 =>
        match env.fullT with
        | .error _ => afterFirstWait md method acc1.1 acc1.2 none
        | .ok d2 =>
          match classInto acc1 d2 with
          | none => ([.errorEv typeErrMsg "transcription"], 2)
          | some acc2 => afterFirstWait md method acc2.1 acc2.2 none

/-- Lines 407-514: with audio in hand, decide between the race (duration
above the threshold and trim succeeded) and the full-only branch; a trim
failure silently degrades to full-only (lines 413-419, 489-501). -/
def streamHaveAudio (md : Metadata) (method : String) (dmeta : Metadata) (env : StreamEnv) :
    List SSEEvent × Nat :=
  if partThresholdSecs < dmeta.duration then
    match env.trim with
    | .error _ => fullOnlyEvents md method env.fullT
    | .ok _ => raceEvents md method env
  else fullOnlyEvents md method env.fullT

/-- The slow path of the generator (lines 333-405): yt-dlp, then pytubefix,
then AssemblyAI direct; `VideoNotFoundError`/`VideoUnavailableError` from a
downloader is surfaced as a download-phase error event immediately. -/
def streamSlow (md : Metadata) (env : StreamEnv) : List SSEEvent × Nat :=
  match env.ytdlp with
  | .ok dmeta => streamHaveAudio md "ytdlp_assemblyai" dmeta env
  | .error e =>
    if e.isYtFatal then ([.errorEv e.msg "download"], 0)
    else
      match env.pytubefix with
      | .ok dmeta => streamHaveAudio md "pytubefix_assemblyai" dmeta env
      | .error e2 =>
        if e2.isYtFatal then ([.errorEv e2.msg "download"], 0)
        else
          match env.direct with
          | .ok r => ([completeFromTR md r], 0)
          | .error e3 =>
            ([.errorEv ("All download methods failed. Last: " ++ e2.msg ++
                "; AssemblyAI direct: " ++ e3.msg) "download"], 0)

/-- Lines 282-331: fast path on caption success, else the slow path with the
merged (or synthesized) metadata. -/
def streamAfterMeta (vid : String) (mdOpt : Option Metadata) (env : StreamEnv) :
    List SSEEvent × Nat :=
  match env.captions with
  | .ok r => ([completeFromTR (mdOpt.getD (minimalMeta vid (r.audio_duration.getD 0))) r], 0)
  | .error _ => streamSlow (mdOpt.getD (minimalMeta vid 0)) env

/-- `event_generator` (transcribe.py lines 238-549): the full emitted event
list and the number of `transcribe_audio` invocations. -/
def streamRun (env : StreamEnv) : List SSEEvent × Nat :=
  match extractVideoId env.url with
  | none => ([.errorEv "Invalid YouTube URL format" "validation"], 0)
  | some vid =>
    match env.oembed with
    | .error e =>
      if e.isYtFatal then ([.errorEv e.msg "metadata"], 0)
      else streamAfterMeta vid none env
    | .ok md =>
      let rest := streamAfterMeta vid (some md) env
      (.metadataEv md.video_id md.title md.channel_name md.thumbnail md.duration :: rest.1,
       rest.2)

/-!
## Theorems

Everything below is proof; no further definitions are introduced except
local `have`s.
-/

/-! ### Generic lemmas about the helpers -/

theorem firstDedupAux_sublist {α : Type} [DecidableEq α] :
    ∀ (l seen : List α), List.Sublist (firstDedupAux seen l) l := by
  intro l
  induction l with
  | nil => intro seen; simp [firstDedupAux]
  | cons a t ih =>
    intro seen
    by_cases h : a ∈ seen
    · simp only [firstDedupAux, if_pos h]
      exact (ih seen).cons a
    · simp only [firstDedupAux, if_neg h]
      exact (ih (a :: seen)).cons₂ a

theorem mem_firstDedupAux {α : Type} [DecidableEq α] (x : α) :
    ∀ (l seen : List α), x ∈ firstDedupAux seen l ↔ x ∈ l ∧ x ∉ seen := by
  intro l
  induction l with
  | nil => intro seen; simp [firstDedupAux]
  | cons a t ih =>
    intro seen
    by_cases h : a ∈ seen
    · simp only [firstDedupAux, if_pos h, ih, List.mem_cons]
      constructor
      · rintro ⟨hx, hs⟩
        exact ⟨Or.inr hx, hs⟩
      · rintro ⟨hx | hx, hs⟩
        · subst hx; exact absurd h hs
        · exact ⟨hx, hs⟩
    · simp only [firstDedupAux, if_neg h, List.mem_cons, ih]
      constructor
      · rintro (rfl | ⟨hx, hs⟩)
        · exact ⟨Or.inl rfl, h⟩
        · exact ⟨Or.inr hx, fun hc => hs (Or.inr hc)⟩
      · rintro ⟨rfl | hx, hs⟩
        · exact Or.inl rfl
        · by_cases hxa : x = a
          · exact Or.inl hxa
          · exact Or.inr ⟨hx, by simp [List.mem_cons, hxa, hs]⟩

theorem nodup_firstDedupAux {α : Type} [DecidableEq α] :
    ∀ (l seen : List α), (firstDedupAux seen l).Nodup := by
  intro l
  induction l with
  | nil => intro seen; simp [firstDedupAux]
  | cons a t ih =>
    intro seen
    by_cases h : a ∈ seen
    · simp only [firstDedupAux, if_pos h]; exact ih seen
    · simp only [firstDedupAux, if_neg h]
      refine List.nodup_cons.mpr ⟨?_, ih (a :: seen)⟩
      intro hc
      exact ((mem_firstDedupAux a t (a :: seen)).mp hc).2 (List.mem_cons_self a seen)

theorem firstDedup_nodup {α : Type} [DecidableEq α] (l : List α) : (firstDedup l).Nodup :=
  nodup_firstDedupAux l []

theorem firstDedup_sublist {α : Type} [DecidableEq α] (l : List α) :
    List.Sublist (firstDedup l) l :=
  firstDedupAux_sublist l []

theorem mem_firstDedup {α : Type} [DecidableEq α] (x : α) (l : List α) :
    x ∈ firstDedup l ↔ x ∈ l := by
  rw [firstDedup, mem_firstDedupAux]
  simp

theorem sortDedup_sorted (l : List String) : List.Sorted (· ≤ ·) (sortDedup l) :=
  List.sorted_insertionSort _ _

theorem sortDedup_nodup (l : List String) : (sortDedup l).Nodup :=
  (List.perm_insertionSort _ _).nodup_iff.mpr (firstDedup_nodup l)

theorem mem_sortDedup (x : String) (l : List String) : x ∈ sortDedup l ↔ x ∈ l := by
  rw [sortDedup, (List.perm_insertionSort _ _).mem_iff, mem_firstDedup]

theorem isInfix_append_right {l t : List Char} (s : List Char) (h : l <:+: t) :
    l <:+: t ++ s := by
  obtain ⟨u, v, huv⟩ := h
  exact ⟨u, v ++ s, by rw [← huv]; simp⟩

theorem isInfix_append_left {l t : List Char} (s : List Char) (h : l <:+: t) :
    l <:+: s ++ t := by
  obtain ⟨u, v, huv⟩ := h
  exact ⟨s ++ u, v, by rw [← huv]; simp⟩

theorem mem_joinSep_isInfix (sep : String) :
    ∀ (l : List String) (x : String), x ∈ l → x.data <:+: (joinSep sep l).data := by
  intro l
  induction l with
  | nil => intro x hx; simp at hx
  | cons a t ih =>
    intro x hx
    cases t with
    | nil =>
      have : x = a := by simpa using hx
      subst this
      simp [joinSep]
    | cons b t2 =>
      rw [show joinSep sep (a :: b :: t2) = a ++ sep ++ joinSep sep (b :: t2) from rfl]
      rcases List.mem_cons.mp hx with rfl | hx2
      · exact ⟨[], sep.data ++ (joinSep sep (b :: t2)).data, by simp⟩
      · have h2 := ih x hx2
        rw [show (a ++ sep ++ joinSep sep (b :: t2)).data
            = (a ++ sep).data ++ (joinSep sep (b :: t2)).data by simp]
        exact isInfix_append_left _ h2

theorem retryAux_count {α : Type} (attempts : Nat → Except String α) (maxRetries : Nat)
    (maxDelay factor : ℚ) (jitter : Bool) (rand : Nat → ℚ) :
    ∀ fuel attempt delay sleeps,
      (retryAux attempts maxRetries maxDelay factor jitter rand fuel attempt delay sleeps).2.2
        ≤ attempt + fuel := by
  intro fuel
  induction fuel with
  | zero => intro attempt delay sleeps; simp [retryAux]
  | succ n ih =>
    intro attempt delay sleeps
    simp only [retryAux]
    cases attempts attempt with
    | ok v => simp
    | error e =>
      by_cases hr : isRetryableError e
      · simp only [hr, if_true]
        by_cases hm : maxRetries ≤ attempt
        · simp [hm]
        · simp only [hm, if_false]
          calc (retryAux attempts maxRetries maxDelay factor jitter rand n (attempt + 1) _ _).2.2
              ≤ (attempt + 1) + n := ih (attempt + 1) _ _
            _ = attempt + (n + 1) := by omega
      · simp [hr]

/-! ### Claim C4 — retry/backoff bounds and delay sequence -/

/-- C4: `retry_with_backoff` with `maxRetries = 3`, `initialDelay = 2`,
`backoffFactor = 2` performs at most 3 retries (4 attempts total); when every
attempt fails with a retryable error the unjittered sleep sequence is exactly
[2, 4, 8] (each passed through the `min (·) maxDelay` cap with
`maxDelay = 30`), and with jitter enabled each delay is independently scaled
by `1/2 + random()`, a factor lying in [0.5, 1.5]. -/
theorem C4_backoff_bounds (e : String) (r : Nat → ℚ)
    (he : isRetryableError e = true) (hr : ∀ i, 0 ≤ r i ∧ r i < 1) :
    (∀ (attempts : Nat → Except String Nat) (j : Bool) (r' : Nat → ℚ),
        (retryWithBackoff attempts 3 2 30 2 j r').2.2 ≤ 4) ∧
    (retryWithBackoff (fun _ => (Except.error e : Except String Nat)) 3 2 30 2 false r).2.1
        = [2, 4, 8] ∧
    (retryWithBackoff (fun _ => (Except.error e : Except String Nat)) 3 2 30 2 true r).2.1 =
      [2 * (1/2 + r 0), 4 * (1/2 + r 1), 8 * (1/2 + r 2)] ∧
    (∀ i, (1 : ℚ)/2 ≤ 1/2 + r i ∧ 1/2 + r i ≤ 3/2) := by
  refine ⟨fun attempts j r' => ?_, ?_, ?_, fun i => ?_⟩
  · have h := retryAux_count attempts 3 30 2 j r' 4 0 2 []
    simpa [retryWithBackoff] using h
  · simp [retryWithBackoff, retryAux, he]
    norm_num
  · simp [retryWithBackoff, retryAux, he]
    norm_num
  · constructor
    · have := (hr i).1; linarith
    · have := (hr i).2; linarith

/-- Witness for C4 at `e = "timeout"`, `r i = 1/2`. -/
theorem C4_backoff_bounds_witness :
    isRetryableError "timeout" = true ∧
    ((∀ (attempts : Nat → Except String Nat) (j : Bool) (r' : Nat → ℚ),
        (retryWithBackoff attempts 3 2 30 2 j r').2.2 ≤ 4) ∧
    (retryWithBackoff (fun _ => (Except.error "timeout" : Except String Nat)) 3 2 30 2 false
        (fun _ => 1/2)).2.1 = [2, 4, 8] ∧
    (retryWithBackoff (fun _ => (Except.error "timeout" : Except String Nat)) 3 2 30 2 true
        (fun _ => 1/2)).2.1 =
      [2 * (1/2 + (1:ℚ)/2), 4 * (1/2 + (1:ℚ)/2), 8 * (1/2 + (1:ℚ)/2)] ∧
    (∀ _i : Nat, (1 : ℚ)/2 ≤ 1/2 + 1/2 ∧ 1/2 + (1:ℚ)/2 ≤ 3/2)) :=
  ⟨by decide, C4_backoff_bounds "timeout" (fun _ => 1/2) (by decide)
      (fun _ => ⟨by norm_num, by norm_num⟩)⟩

/-! #### Reduction lemmas for the matcher -/

theorem isPrefixOf_append_self (l s : List Char) : l.isPrefixOf (l ++ s) = true := by
  induction l with
  | nil => simp
  | cons c t ih => simp [List.isPrefixOf_cons₂, ih]

theorem stripLit_append (lit s : List Char) : stripLit lit (lit ++ s) = some s := by
  simp [stripLit, isPrefixOf_append_self, List.drop_left]

theorem stripLit_nil (s : List Char) : stripLit [] s = some s := by
  simp [stripLit]

theorem takeId11_exact (id : List Char) (h1 : id.length = 11) (h2 : id.all isIdChar) :
    takeId11 id = some id := by
  have ht : id.take 11 = id := by
    rw [← h1]; simp
  simp [takeId11, ht, h1, h2]

theorem altStrip_cons (lit : List Char) (rest : List (List Char)) (s : List Char)
    (k : List Char → Option (List Char)) :
    altStrip (lit :: rest) s k =
      match stripLit lit s with
      | some r =>
        match k r with
        | some out => some out
        | none => altStrip rest s k
      | none => altStrip rest s k := rfl

theorem altStrip_nil (s : List Char) (k : List Char → Option (List Char)) :
    altStrip [] s k = none := rfl

/-- A pattern hit on an input carrying the `www.` part. -/
theorem matchPattern_www_hit (host r v : List Char) (h : takeId11 r = some v) :
    matchPattern host ("https://".data ++ ("www.".data ++ (host ++ r))) = some v := by
  unfold matchPattern
  simp only [altStrip_cons, altStrip_nil, stripLit_append, stripLit_nil, h, Option.bind]

/-- A pattern hit on an input without the `www.` part (backtracking into the
empty alternative of `(www\.)?`). -/
theorem matchPattern_nowww_hit (host r v : List Char) (h : takeId11 r = some v)
    (hw : stripLit "www.".data (host ++ r) = none) :
    matchPattern host ("https://".data ++ (host ++ r)) = some v := by
  unfold matchPattern
  simp only [altStrip_cons, altStrip_nil, stripLit_append, stripLit_nil, hw, h, Option.bind]

/-! ### Claim C9 — `extract_video_id` canonicalizes every URL form -/

/-- C9: for every 11-character identifier over `[A-Za-z0-9_-]`, the bare
identifier, the watch URL, the youtu.be URL, the embed URL, the `/v/` URL
and the shorts URL built from it all extract to that same identifier. -/
theorem C9_extract_video_id_canonical (id : String)
    (h1 : id.data.length = 11) (h2 : id.data.all isIdChar) :
    extractVideoId id = some id ∧
    extractVideoId ("https://www.youtube.com/watch?v=" ++ id) = some id ∧
    extractVideoId ("https://youtu.be/" ++ id) = some id ∧
    extractVideoId ("https://www.youtube.com/embed/" ++ id) = some id ∧
    extractVideoId ("https://www.youtube.com/v/" ++ id) = some id ∧
    extractVideoId ("https://www.youtube.com/shorts/" ++ id) = some id := by
  have htake := takeId11_exact id.data h1 h2
  have hcore : ∀ s : List Char, ¬(s.length = 11 ∧ s.all isIdChar = true) →
      tryPatterns urlHosts s = some id.data → extractVideoIdL s = some id.data := by
    intro s hne hp
    unfold extractVideoIdL
    rw [if_neg hne, hp]
  have hwatch : extractVideoIdL ("https://www.youtube.com/watch?v=".data ++ id.data)
      = some id.data := by
    apply hcore
    · intro hc
      have hx := hc.1
      rw [List.length_append, h1] at hx
      exact absurd hx (by decide)
    · have hm : matchPattern "youtube.com/watch?v=".data
          ("https://www.youtube.com/watch?v=".data ++ id.data) = some id.data := by
        rw [show ("https://www.youtube.com/watch?v=".data ++ id.data : List Char)
            = "https://".data ++ ("www.".data ++ ("youtube.com/watch?v=".data ++ id.data))
            from rfl]
        exact matchPattern_www_hit _ _ _ htake
      simp only [urlHosts, tryPatterns, hm]
  have hbe : extractVideoIdL ("https://youtu.be/".data ++ id.data) = some id.data := by
    apply hcore
    · intro hc
      have hx := hc.1
      rw [List.length_append, h1] at hx
      exact absurd hx (by decide)
    · have hm : matchPattern "youtu.be/".data ("https://youtu.be/".data ++ id.data)
          = some id.data := by
        rw [show ("https://youtu.be/".data ++ id.data : List Char)
            = "https://".data ++ ("youtu.be/".data ++ id.data) from rfl]
        exact matchPattern_nowww_hit "youtu.be/".data id.data id.data htake rfl
      have hf1 : matchPattern "youtube.com/watch?v=".data
          ("https://youtu.be/".data ++ id.data) = none := rfl
      simp only [urlHosts, tryPatterns, hm, hf1]
  have hembed : extractVideoIdL ("https://www.youtube.com/embed/".data ++ id.data)
      = some id.data := by
    apply hcore
    · intro hc
      have hx := hc.1
      rw [List.length_append, h1] at hx
      exact absurd hx (by decide)
    · have hm : matchPattern "youtube.com/embed/".data
          ("https://www.youtube.com/embed/".data ++ id.data) = some id.data := by
        rw [show ("https://www.youtube.com/embed/".data ++ id.data : List Char)
            = "https://".data ++ ("www.".data ++ ("youtube.com/embed/".data ++ id.data))
            from rfl]
        exact matchPattern_www_hit _ _ _ htake
      have hf1 : matchPattern "youtube.com/watch?v=".data
          ("https://www.youtube.com/embed/".data ++ id.data) = none := rfl
      have hf2 : matchPattern "youtu.be/".data
          ("https://www.youtube.com/embed/".data ++ id.data) = none := rfl
      simp only [urlHosts, tryPatterns, hm, hf1, hf2]
  have hv : extractVideoIdL ("https://www.youtube.com/v/".data ++ id.data) = some id.data := by
    apply hcore
    · intro hc
      have hx := hc.1
      rw [List.length_append, h1] at hx
      exact absurd hx (by decide)
    · have hm : matchPattern "youtube.com/v/".data
          ("https://www.youtube.com/v/".data ++ id.data) = some id.data := by
        rw [show ("https://www.youtube.com/v/".data ++ id.data : List Char)
            = "https://".data ++ ("www.".data ++ ("youtube.com/v/".data ++ id.data)) from rfl]
        exact matchPattern_www_hit _ _ _ htake
      have hf1 : matchPattern "youtube.com/watch?v=".data
          ("https://www.youtube.com/v/".data ++ id.data) = none := rfl
      have hf2 : matchPattern "youtu.be/".data
          ("https://www.youtube.com/v/".data ++ id.data) = none := rfl
      have hf3 : matchPattern "youtube.com/embed/".data
          ("https://www.youtube.com/v/".data ++ id.data) = none := rfl
      simp only [urlHosts, tryPatterns, hm, hf1, hf2, hf3]
  have hshorts : extractVideoIdL ("https://www.youtube.com/shorts/".data ++ id.data)
      = some id.data := by
    apply hcore
    · intro hc
      have hx := hc.1
      rw [List.length_append, h1] at hx
      exact absurd hx (by decide)
    · have hm : matchPattern "youtube.com/shorts/".data
          ("https://www.youtube.com/shorts/".data ++ id.data) = some id.data := by
        rw [show ("https://www.youtube.com/shorts/".data ++ id.data : List Char)
            = "https://".data ++ ("www.".data ++ ("youtube.com/shorts/".data ++ id.data))
            from rfl]
        exact matchPattern_www_hit _ _ _ htake
      have hf1 : matchPattern "youtube.com/watch?v=".data
          ("https://www.youtube.com/shorts/".data ++ id.data) = none := rfl
      have hf2 : matchPattern "youtu.be/".data
          ("https://www.youtube.com/shorts/".data ++ id.data) = none := rfl
      have hf3 : matchPattern "youtube.com/embed/".data
          ("https://www.youtube.com/shorts/".data ++ id.data) = none := rfl
      have hf4 : matchPattern "youtube.com/v/".data
          ("https://www.youtube.com/shorts/".data ++ id.data) = none := rfl
      simp only [urlHosts, tryPatterns, hm, hf1, hf2, hf3, hf4]
  have hbare : extractVideoIdL id.data = some id.data := by
    unfold extractVideoIdL
    rw [if_pos ⟨h1, h2⟩]
  refine ⟨?_, ?_, ?_, ?_, ?_, ?_⟩
  · show (extractVideoIdL id.data).map List.asString = some id
    rw [hbare]; rfl
  · show (extractVideoIdL ("https://www.youtube.com/watch?v=" ++ id).data).map List.asString
      = some id
    rw [show (("https://www.youtube.com/watch?v=" ++ id).data : List Char)
        = "https://www.youtube.com/watch?v=".data ++ id.data from rfl, hwatch]
    rfl
  · show (extractVideoIdL ("https://youtu.be/" ++ id).data).map List.asString = some id
    rw [show (("https://youtu.be/" ++ id).data : List Char)
        = "https://youtu.be/".data ++ id.data from rfl, hbe]
    rfl
  · show (extractVideoIdL ("https://www.youtube.com/embed/" ++ id).data).map List.asString
      = some id
    rw [show (("https://www.youtube.com/embed/" ++ id).data : List Char)
        = "https://www.youtube.com/embed/".data ++ id.data from rfl, hembed]
    rfl
  · show (extractVideoIdL ("https://www.youtube.com/v/" ++ id).data).map List.asString = some id
    rw [show (("https://www.youtube.com/v/" ++ id).data : List Char)
        = "https://www.youtube.com/v/".data ++ id.data from rfl, hv]
    rfl
  · show (extractVideoIdL ("https://www.youtube.com/shorts/" ++ id).data).map List.asString
      = some id
    rw [show (("https://www.youtube.com/shorts/" ++ id).data : List Char)
        = "https://www.youtube.com/shorts/".data ++ id.data from rfl, hshorts]
    rfl

/-- Witness for C9 at `id = "abc12345678"`. -/
theorem C9_extract_video_id_canonical_witness :
    ("abc12345678" : String).data.length = 11 ∧
    (extractVideoId "abc12345678" = some "abc12345678" ∧
     extractVideoId ("https://www.youtube.com/watch?v=" ++ "abc12345678") = some "abc12345678" ∧
     extractVideoId ("https://youtu.be/" ++ "abc12345678") = some "abc12345678" ∧
     extractVideoId ("https://www.youtube.com/embed/" ++ "abc12345678") = some "abc12345678" ∧
     extractVideoId ("https://www.youtube.com/v/" ++ "abc12345678") = some "abc12345678" ∧
     extractVideoId ("https://www.youtube.com/shorts/" ++ "abc12345678") = some "abc12345678") :=
  ⟨by decide, C9_extract_video_id_canonical "abc12345678" (by decide) (by decide)⟩

/-! ### Claim C5 — classifier on two sample messages -/

/-- C5: the classifier maps "HTTP 429 Too Many Requests" to the rate-limited
class with `is_retryable_error` true, and "Video not found" to the not-found
class with `is_retryable_error` false. -/
theorem C5_classifier_samples :
    classifyYoutubeError "HTTP 429 Too Many Requests" = .rateLimited ∧
    isRetryableError "HTTP 429 Too Many Requests" = true ∧
    classifyYoutubeError "Video not found" = .notFound ∧
    isRetryableError "Video not found" = false := by
  refine ⟨?_, ?_, ?_, ?_⟩ <;> decide

/-! ### Claim C10 — speaker-list invariant of the AssemblyAI-based tiers -/

/-- C10: every result shaped from an AssemblyAI transcript — by
`transcribe_audio` and by `_fetch_with_assemblyai_direct` alike — has a
`speakers` list that is duplicate-free, sorted ascending and equal as a set
to the speaker labels occurring in the utterances; when there are no
utterances, `speakers` is empty and `utterances` is `None`. -/
theorem C10_speakers_invariant (t : AaiTranscript) (d : TData) (r : TR)
    (hd : transcribeAudio t = .ok d) (hr : fetchWithAssemblyaiDirect t = .ok r) :
    (d.speakers.Nodup ∧ List.Sorted (· ≤ ·) d.speakers ∧
      (∀ s, s ∈ d.speakers ↔ s ∈ t.utterances.map Utt.speaker) ∧
      (t.utterances = [] → d.speakers = [] ∧ d.utterances = none)) ∧
    (r.speakers.Nodup ∧ List.Sorted (· ≤ ·) r.speakers ∧
      (∀ s, s ∈ r.speakers ↔ s ∈ t.utterances.map Utt.speaker) ∧
      (t.utterances = [] → r.speakers = [] ∧ r.utterances = none)) := by
  cases hs : t.statusError with
  | true =>
    unfold transcribeAudio at hd
    rw [hs] at hd
    simp at hd
  | false =>
    unfold transcribeAudio at hd
    unfold fetchWithAssemblyaiDirect at hr
    rw [hs] at hd hr
    simp only [Bool.false_eq_true, if_false, Except.ok.injEq] at hd hr
    subst hd
    subst hr
    cases hu : t.utterances with
    | nil =>
      refine ⟨⟨?_, ?_, ?_, ?_⟩, ⟨?_, ?_, ?_, ?_⟩⟩ <;> simp [hu]
    | cons a l =>
      refine ⟨⟨?_, ?_, ?_, ?_⟩, ⟨?_, ?_, ?_, ?_⟩⟩
      · simpa [hu] using sortDedup_nodup ((a :: l).map Utt.speaker)
      · simpa [hu] using sortDedup_sorted ((a :: l).map Utt.speaker)
      · intro s; simp [hu, mem_sortDedup]
      · intro hc; exact absurd hc (List.cons_ne_nil a l)
      · simpa [hu] using sortDedup_nodup ((a :: l).map Utt.speaker)
      · simpa [hu] using sortDedup_sorted ((a :: l).map Utt.speaker)
      · intro s; simp [hu, mem_sortDedup]
      · intro hc; exact absurd hc (List.cons_ne_nil a l)

/-- Witness for C10 at a one-utterance transcript. -/
theorem C10_speakers_invariant_witness :
    transcribeAudio ⟨false, none, "t1", "hi", [⟨"A", "hi", 0, 5, 1⟩], none, some 5, some "en"⟩
      = .ok ⟨"t1", "hi", some [⟨"A", "hi", 0, 5, 1⟩], ["A"], none, some 5, some "en"⟩ ∧
    fetchWithAssemblyaiDirect
        ⟨false, none, "t1", "hi", [⟨"A", "hi", 0, 5, 1⟩], none, some 5, some "en"⟩
      = .ok ⟨.assemblyaiDirect, "hi", some [⟨"A", "hi", 0, 5, 1⟩], ["A"], none, some 5,
          some "en", "t1"⟩ ∧
    ((["A"] : List String).Nodup ∧ List.Sorted (· ≤ ·) (["A"] : List String) ∧
      (∀ s, s ∈ (["A"] : List String) ↔
        s ∈ ([⟨"A", "hi", 0, 5, 1⟩] : List Utt).map Utt.speaker) ∧
      (([⟨"A", "hi", 0, 5, 1⟩] : List Utt) = [] →
        (["A"] : List String) = [] ∧
          (some [(⟨"A", "hi", 0, 5, 1⟩ : Utt)] : Option (List Utt)) = none)) ∧
    ((["A"] : List String).Nodup ∧ List.Sorted (· ≤ ·) (["A"] : List String) ∧
      (∀ s, s ∈ (["A"] : List String) ↔
        s ∈ ([⟨"A", "hi", 0, 5, 1⟩] : List Utt).map Utt.speaker) ∧
      (([⟨"A", "hi", 0, 5, 1⟩] : List Utt) = [] →
        (["A"] : List String) = [] ∧
          (some [(⟨"A", "hi", 0, 5, 1⟩ : Utt)] : Option (List Utt)) = none)) := by
  refine ⟨rfl, rfl, ?_⟩
  have h := C10_speakers_invariant
    ⟨false, none, "t1", "hi", [⟨"A", "hi", 0, 5, 1⟩], none, some 5, some "en"⟩
    ⟨"t1", "hi", some [⟨"A", "hi", 0, 5, 1⟩], ["A"], none, some 5, some "en"⟩
    ⟨.assemblyaiDirect, "hi", some [⟨"A", "hi", 0, 5, 1⟩], ["A"], none, some 5,
      some "en", "t1"⟩ rfl rfl
  exact h

/-! ### Claim C1 — the ladder does NOT short-circuit on NotFound/Unavailable -/

/-- C1 counterexample: tier 2 fails with `VideoNotFoundError`, yet tier 3 is
still invoked (the trace is [t1, t2, t3]) and resolution continues to tier
3's success — `get_transcript` catches `(VideoNotFoundError,
VideoUnavailableError)` at lines 625-627 and falls through to the next tier,
so the claimed immediate termination does not happen. -/
theorem C1_counterexample :
    (getTranscript "abc12345678" false
        ⟨.error (.otherError "Exception" "no captions"),
         .error (.videoNotFound "Video not found: abc12345678"),
         .ok ⟨.pytubefixAssemblyai, "text", none, [], none, some 10, some "en", "t3"⟩,
         .ok ⟨.assemblyaiDirect, "text", none, [], none, some 10, some "en", "t4"⟩⟩).2
      = [.t1, .t2, .t3] ∧
    (getTranscript "abc12345678" false
        ⟨.error (.otherError "Exception" "no captions"),
         .error (.videoNotFound "Video not found: abc12345678"),
         .ok ⟨.pytubefixAssemblyai, "text", none, [], none, some 10, some "en", "t3"⟩,
         .ok ⟨.assemblyaiDirect, "text", none, [], none, some 10, some "en", "t4"⟩⟩).1
      = .ok ⟨.pytubefixAssemblyai, "text", none, [], none, some 10, some "en", "t3"⟩ :=
  ⟨rfl, rfl⟩

/-- C1 (amended): a NotFound/Unavailable-classified failure in a tier does
NOT terminate resolution early: every tier's exception — whatever its class —
is caught and recorded, and the next tier is invoked; when tiers 1-3 all
fail, all four tiers are invoked in priority order.  Only an invalid video
reference terminates with no tier invoked. -/
theorem C1_no_short_circuit (url vid : String) (env : TierEnv) (e1 e2 e3 : Exc)
    (hv : extractVideoId url = some vid)
    (h1 : env.tier1 = .error e1) (h2 : env.tier2 = .error e2) (h3 : env.tier3 = .error e3) :
    (getTranscript url false env).2 = [.t1, .t2, .t3, .t4] ∧
    (∀ badUrl, extractVideoId badUrl = none →
      getTranscript badUrl false env
        = (.error (.videoNotFound "Invalid YouTube URL format"), [])) := by
  constructor
  · simp only [getTranscript, hv, Bool.false_eq_true, if_false, h1, runSlowTiers, h2, h3]
    cases h4 : env.tier4 <;> simp
  · intro badUrl hb
    simp [getTranscript, hb]

/-- Witness for C1's amended theorem: the tiers fail with exactly the
NotFound/Unavailable classes the original claim speaks about, and all four
tiers still run. -/
theorem C1_no_short_circuit_witness :
    extractVideoId "abc12345678" = some "abc12345678" ∧
    ((getTranscript "abc12345678" false
        ⟨.error (.videoNotFound "Video not found"),
         .error (.videoUnavailable "Video is private"),
         .error (.videoNotFound "Video not found"),
         .error (.transcriptionErr "boom")⟩).2 = [.t1, .t2, .t3, .t4] ∧
     (∀ badUrl, extractVideoId badUrl = none →
        getTranscript badUrl false
          ⟨.error (.videoNotFound "Video not found"),
           .error (.videoUnavailable "Video is private"),
           .error (.videoNotFound "Video not found"),
           .error (.transcriptionErr "boom")⟩
          = (.error (.videoNotFound "Invalid YouTube URL format"), []))) :=
  ⟨rfl, C1_no_short_circuit "abc12345678" "abc12345678"
    ⟨.error (.videoNotFound "Video not found"),
     .error (.videoUnavailable "Video is private"),
     .error (.videoNotFound "Video not found"),
     .error (.transcriptionErr "boom")⟩
    (.videoNotFound "Video not found") (.videoUnavailable "Video is private")
    (.videoNotFound "Video not found") rfl rfl rfl rfl⟩

/-! ### Claim C2 — fast-path success is NOT independent of the metadata outcome -/

/-- C2 counterexample: the fast-path captions succeed, but the oEmbed
metadata call fails with `VideoNotFoundError` — and `transcribe_video`
returns a failure response (transcribe.py lines 93-95 run BEFORE the caption
outcome is inspected), so resolution does not terminate in Success
"regardless of the metadata fetch's outcome". -/
theorem C2_counterexample :
    (⟨.error (.videoNotFound "Video not found: abc12345678"),
      .ok ⟨.youtubeCaptions, "hello", none, [], none, some 42, some "en", "c1"⟩,
      ⟨.error (.otherError "Exception" "x"), .error (.otherError "Exception" "x"),
       .error (.otherError "Exception" "x"), .error (.otherError "Exception" "x")⟩⟩ :
        TranscribeEnv).captions
      = .ok ⟨.youtubeCaptions, "hello", none, [], none, some 42, some "en", "c1"⟩ ∧
    (transcribeVideo "abc12345678"
        ⟨.error (.videoNotFound "Video not found: abc12345678"),
         .ok ⟨.youtubeCaptions, "hello", none, [], none, some 42, some "en", "c1"⟩,
         ⟨.error (.otherError "Exception" "x"), .error (.otherError "Exception" "x"),
          .error (.otherError "Exception" "x"), .error (.otherError "Exception" "x")⟩⟩).success
      = false :=
  ⟨rfl, rfl⟩

/-- C2 (amended): when the fast-path captions succeed AND the metadata
failure (if any) is not classified NotFound/Unavailable, resolution
terminates in Success with the caption result, merging the oEmbed metadata
when available and the synthesized minimal record (id + placeholder
title/thumbnail) when metadata failed; a NotFound/Unavailable metadata
failure instead fails the whole request even though captions succeeded. -/
theorem C2_fast_path (url vid : String) (env : TranscribeEnv) (r : TR)
    (hv : extractVideoId url = some vid)
    (hc : env.captions = .ok r)
    (hm : ∀ e, env.oembed = .error e → e.isYtFatal = false) :
    transcribeVideo url env
      = ⟨true, none, some (fastRespData (resolveFastMeta (exceptToOption env.oembed) vid r) r)⟩
    ∧ (∀ e, env.oembed = .error e →
        resolveFastMeta (exceptToOption env.oembed) vid r
          = minimalMeta vid (r.audio_duration.getD 0))
    ∧ (∀ e, env.oembed = .error e → e.isYtFatal = true →
        (transcribeVideo url env).success = false) := by
  cases ho : env.oembed with
  | ok m =>
    refine ⟨?_, ?_, ?_⟩
    · simp only [transcribeVideo, hv, ho, transcribeAfterMeta, hc, exceptToOption]
    · intro e he; simp at he
    · intro e he; simp at he
  | error e0 =>
    have hf := hm e0 ho
    refine ⟨?_, ?_, ?_⟩
    · simp only [transcribeVideo, hv, ho, hf, Bool.false_eq_true, if_false,
        transcribeAfterMeta, hc, exceptToOption]
    · intro e he
      simp [exceptToOption, resolveFastMeta]
    · intro e he hfat
      have h0 : e0 = e := by simpa using he
      subst h0
      simp [hf] at hfat

/-- Witness for C2's amended theorem: oEmbed fails with a generic (non-fatal)
exception, captions succeed, and the response is a Success carrying the
caption result merged with the synthesized minimal metadata. -/
theorem C2_fast_path_witness :
    extractVideoId "abc12345678" = some "abc12345678" ∧
    (transcribeVideo "abc12345678"
        ⟨.error (.otherError "Exception" "oembed down"),
         .ok ⟨.youtubeCaptions, "hello", none, [], none, some 42, some "en", "c1"⟩,
         ⟨.error (.otherError "Exception" "x"), .error (.otherError "Exception" "x"),
          .error (.otherError "Exception" "x"), .error (.otherError "Exception" "x")⟩⟩
      = ⟨true, none, some (fastRespData
          (resolveFastMeta
            (exceptToOption (.error (.otherError "Exception" "oembed down"))) "abc12345678"
            ⟨.youtubeCaptions, "hello", none, [], none, some 42, some "en", "c1"⟩)
          ⟨.youtubeCaptions, "hello", none, [], none, some 42, some "en", "c1"⟩)⟩
    ∧ (∀ e, (.error (.otherError "Exception" "oembed down") : Except Exc Metadata) = .error e →
        resolveFastMeta
            (exceptToOption (.error (.otherError "Exception" "oembed down"))) "abc12345678"
            ⟨.youtubeCaptions, "hello", none, [], none, some 42, some "en", "c1"⟩
          = minimalMeta "abc12345678"
              ((⟨.youtubeCaptions, "hello", none, [], none, some 42, some "en", "c1"⟩ :
                TR).audio_duration.getD 0))
    ∧ (∀ e, (.error (.otherError "Exception" "oembed down") : Except Exc Metadata) = .error e →
        e.isYtFatal = true →
        (transcribeVideo "abc12345678"
          ⟨.error (.otherError "Exception" "oembed down"),
           .ok ⟨.youtubeCaptions, "hello", none, [], none, some 42, some "en", "c1"⟩,
           ⟨.error (.otherError "Exception" "x"), .error (.otherError "Exception" "x"),
            .error (.otherError "Exception" "x"),
            .error (.otherError "Exception" "x")⟩⟩).success = false)) :=
  ⟨rfl, C2_fast_path "abc12345678" "abc12345678"
    ⟨.error (.otherError "Exception" "oembed down"),
     .ok ⟨.youtubeCaptions, "hello", none, [], none, some 42, some "en", "c1"⟩,
     ⟨.error (.otherError "Exception" "x"), .error (.otherError "Exception" "x"),
      .error (.otherError "Exception" "x"), .error (.otherError "Exception" "x")⟩⟩
    ⟨.youtubeCaptions, "hello", none, [], none, some 42, some "en", "c1"⟩
    rfl rfl (fun e he => by cases he; rfl)⟩

/-! ### Claim C3 — the aggregate NoCaptionsAvailable error -/

theorem msg_infix_part (pre m : String) : m.data <:+: (pre ++ m).data :=
  ⟨pre.data, [], by simp⟩

theorem part_infix_aggregateMsg (vid : String) (t1e : Option Exc) (e2 e3 e4 : Exc)
    (p : String) (hp : p ∈ aggregateParts t1e e2 e3 e4) :
    p.data <:+: (aggregateMsg vid t1e e2 e3 e4).data := by
  have h1 := mem_joinSep_isInfix "; " (aggregateParts t1e e2 e3 e4) p hp
  unfold aggregateMsg
  by_cases hr : (allRecs t1e e2 e3).isEmpty
  · rw [if_pos hr, String.data_append]
    exact isInfix_append_left _ h1
  · rw [if_neg hr, String.data_append]
    refine isInfix_append_left _ ?_
    simp only [String.data_append]
    exact isInfix_append_right _ (isInfix_append_right _ (isInfix_append_right _ h1))

/-- C3 counterexample: every tier fails with a message the classifier maps to
its default class (the spec's Unknown kind) and that `is_retryable_error`
also rejects, yet a recommendation IS synthesized — the recommendation
triggers are raw substring checks ("ip" matches inside "ip pool exhausted"),
not derived from the classified kinds, so "no recommendation synthesized for
Unknown-kind errors" fails. -/
theorem C3_counterexample :
    classifyYoutubeError "ip pool exhausted" = .downloadError ∧
    isRetryableError "ip pool exhausted" = false ∧
    classifyYoutubeError "boom" = .downloadError ∧
    allRecs (some (.otherError "Exception" "ip pool exhausted"))
        (.downloadErr "boom") (.downloadErr "boom")
      = ["YouTube is blocking requests from this IP"] ∧
    (getTranscript "abc12345678" false
        ⟨.error (.otherError "Exception" "ip pool exhausted"), .error (.downloadErr "boom"),
         .error (.downloadErr "boom"), .error (.transcriptionErr "boom")⟩).1
      = .error (.noCaptionsAvailable (aggregateMsg "abc12345678"
          (some (.otherError "Exception" "ip pool exhausted")) (.downloadErr "boom")
          (.downloadErr "boom") (.transcriptionErr "boom"))) ∧
    occursIn "[Recommendations: ".data
        (aggregateMsg "abc12345678" (some (.otherError "Exception" "ip pool exhausted"))
          (.downloadErr "boom") (.downloadErr "boom") (.transcriptionErr "boom")).data
      = true :=
  ⟨by decide, by decide, by decide, by decide, rfl, by decide⟩

/-- C3 (amended): when every tier fails, `get_transcript` raises
`NoCaptionsAvailableError` whose message contains every attempted tier's
error message; the recommendations are derived by keyword substring matches
on the raw error messages (NOT from the classified kinds — an Unknown-kind
message containing a trigger substring still yields one), deduplicated
keeping the first occurrence of each and preserving order; when no message
contains any trigger, no recommendation section is appended. -/
theorem C3_aggregate_message (url vid : String) (env : TierEnv) (e1 e2 e3 e4 : Exc)
    (hv : extractVideoId url = some vid)
    (h1 : env.tier1 = .error e1) (h2 : env.tier2 = .error e2)
    (h3 : env.tier3 = .error e3) (h4 : env.tier4 = .error e4) :
    (getTranscript url false env).1
      = .error (.noCaptionsAvailable (aggregateMsg vid (some e1) e2 e3 e4)) ∧
    e1.msg.data <:+: (aggregateMsg vid (some e1) e2 e3 e4).data ∧
    e2.msg.data <:+: (aggregateMsg vid (some e1) e2 e3 e4).data ∧
    e3.msg.data <:+: (aggregateMsg vid (some e1) e2 e3 e4).data ∧
    e4.msg.data <:+: (aggregateMsg vid (some e1) e2 e3 e4).data ∧
    (firstDedup (allRecs (some e1) e2 e3)).Nodup ∧
    List.Sublist (firstDedup (allRecs (some e1) e2 e3)) (allRecs (some e1) e2 e3) ∧
    (allRecs (some e1) e2 e3 = [] →
      aggregateMsg vid (some e1) e2 e3 e4
        = "Could not get transcript for video " ++ vid ++ ". "
          ++ joinSep "; " (aggregateParts (some e1) e2 e3 e4)) := by
  refine ⟨?_, ?_, ?_, ?_, ?_, firstDedup_nodup _, firstDedup_sublist _, ?_⟩
  · simp only [getTranscript, hv, Bool.false_eq_true, if_false, h1, runSlowTiers, h2, h3, h4]
  · exact (msg_infix_part "Captions: " e1.msg).trans
      (part_infix_aggregateMsg vid (some e1) e2 e3 e4 _ (by simp [aggregateParts]))
  · exact (msg_infix_part "yt-dlp: " e2.msg).trans
      (part_infix_aggregateMsg vid (some e1) e2 e3 e4 _ (by simp [aggregateParts]))
  · exact (msg_infix_part "pytubefix: " e3.msg).trans
      (part_infix_aggregateMsg vid (some e1) e2 e3 e4 _ (by simp [aggregateParts]))
  · exact (msg_infix_part "Direct: " e4.msg).trans
      (part_infix_aggregateMsg vid (some e1) e2 e3 e4 _ (by simp [aggregateParts]))
  · intro hz
    unfold aggregateMsg
    rw [if_pos (by simp [hz])]

/-- Witness for C3's amended theorem at four concrete Unknown-kind failures
("timeout while fetching" is rate-limit/bot-free: no recommendation trigger
fires, so the message carries no recommendation section). -/
theorem C3_aggregate_message_witness :
    extractVideoId "abc12345678" = some "abc12345678" ∧
    ((getTranscript "abc12345678" false
        ⟨.error (.otherError "Exception" "alpha failure"), .error (.downloadErr "beta failure"),
         .error (.downloadErr "gamma failure"), .error (.transcriptionErr "delta failure")⟩).1
      = .error (.noCaptionsAvailable (aggregateMsg "abc12345678"
          (some (.otherError "Exception" "alpha failure")) (.downloadErr "beta failure")
          (.downloadErr "gamma failure") (.transcriptionErr "delta failure"))) ∧
    (Exc.otherError "Exception" "alpha failure").msg.data <:+:
      (aggregateMsg "abc12345678" (some (.otherError "Exception" "alpha failure"))
        (.downloadErr "beta failure") (.downloadErr "gamma failure")
        (.transcriptionErr "delta failure")).data ∧
    (Exc.downloadErr "beta failure").msg.data <:+:
      (aggregateMsg "abc12345678" (some (.otherError "Exception" "alpha failure"))
        (.downloadErr "beta failure") (.downloadErr "gamma failure")
        (.transcriptionErr "delta failure")).data ∧
    (Exc.downloadErr "gamma failure").msg.data <:+:
      (aggregateMsg "abc12345678" (some (.otherError "Exception" "alpha failure"))
        (.downloadErr "beta failure") (.downloadErr "gamma failure")
        (.transcriptionErr "delta failure")).data ∧
    (Exc.transcriptionErr "delta failure").msg.data <:+:
      (aggregateMsg "abc12345678" (some (.otherError "Exception" "alpha failure"))
        (.downloadErr "beta failure") (.downloadErr "gamma failure")
        (.transcriptionErr "delta failure")).data ∧
    (firstDedup (allRecs (some (.otherError "Exception" "alpha failure"))
        (.downloadErr "beta failure") (.downloadErr "gamma failure"))).Nodup ∧
    List.Sublist
      (firstDedup (allRecs (some (.otherError "Exception" "alpha failure"))
        (.downloadErr "beta failure") (.downloadErr "gamma failure")))
      (allRecs (some (.otherError "Exception" "alpha failure"))
        (.downloadErr "beta failure") (.downloadErr "gamma failure")) ∧
    (allRecs (some (.otherError "Exception" "alpha failure"))
        (.downloadErr "beta failure") (.downloadErr "gamma failure") = [] →
      aggregateMsg "abc12345678" (some (.otherError "Exception" "alpha failure"))
          (.downloadErr "beta failure") (.downloadErr "gamma failure")
          (.transcriptionErr "delta failure")
        = "Could not get transcript for video " ++ "abc12345678" ++ ". "
          ++ joinSep "; " (aggregateParts (some (.otherError "Exception" "alpha failure"))
              (.downloadErr "beta failure") (.downloadErr "gamma failure")
              (.transcriptionErr "delta failure")))) :=
  ⟨rfl, C3_aggregate_message "abc12345678" "abc12345678"
    ⟨.error (.otherError "Exception" "alpha failure"), .error (.downloadErr "beta failure"),
     .error (.downloadErr "gamma failure"), .error (.transcriptionErr "delta failure")⟩
    (.otherError "Exception" "alpha failure") (.downloadErr "beta failure")
    (.downloadErr "gamma failure") (.transcriptionErr "delta failure") rfl rfl rfl rfl rfl⟩

/-! ### Claims C6-C8 — the progressive partial/full race -/

/-- Any stream that gets past validation, metadata and the downloaders
reduces to `streamHaveAudio`, preceded only by (at most) a metadata event. -/
theorem streamRun_haveAudio (env : StreamEnv) (vid : String) (dmeta : Metadata)
    (method : String)
    (hv : extractVideoId env.url = some vid)
    (hm : ∀ e, env.oembed = .error e → e.isYtFatal = false)
    (hc : ∃ ce, env.captions = .error ce)
    (hd : (env.ytdlp = .ok dmeta ∧ method = "ytdlp_assemblyai") ∨
      ((∃ e, env.ytdlp = .error e ∧ e.isYtFatal = false) ∧
        env.pytubefix = .ok dmeta ∧ method = "pytubefix_assemblyai")) :
    ∃ (pre : List SSEEvent) (md : Metadata),
      (∀ ev ∈ pre, ev.isPart = false ∧ ev.isComplete = false ∧ ev.isError = false) ∧
      streamRun env = (pre ++ (streamHaveAudio md method dmeta env).1,
        (streamHaveAudio md method dmeta env).2) := by
  obtain ⟨ce, hce⟩ := hc
  cases ho : env.oembed with
  | ok m =>
    refine ⟨[.metadataEv m.video_id m.title m.channel_name m.thumbnail m.duration], m,
      ?_, ?_⟩
    · intro ev hev
      simp only [List.mem_singleton] at hev
      subst hev
      exact ⟨rfl, rfl, rfl⟩
    · rcases hd with ⟨hy, hmeth⟩ | ⟨⟨e, hy, hyf⟩, hp, hmeth⟩
      · subst hmeth
        simp only [streamRun, hv, ho, streamAfterMeta, hce, streamSlow, hy,
          Option.getD_some, List.singleton_append]
      · subst hmeth
        simp only [streamRun, hv, ho, streamAfterMeta, hce, streamSlow, hy, hyf,
          Bool.false_eq_true, if_false, hp, Option.getD_some, List.singleton_append]
  | error e0 =>
    have hf := hm e0 ho
    refine ⟨[], minimalMeta vid 0, by simp, ?_⟩
    rcases hd with ⟨hy, hmeth⟩ | ⟨⟨e, hy, hyf⟩, hp, hmeth⟩
    · subst hmeth
      simp only [streamRun, hv, ho, hf, Bool.false_eq_true, if_false, streamAfterMeta,
        hce, streamSlow, hy, Option.getD_none, List.nil_append]
    · subst hmeth
      simp only [streamRun, hv, ho, hf, Bool.false_eq_true, if_false, streamAfterMeta,
        hce, streamSlow, hy, hyf, hp, Option.getD_none, List.nil_append]

/-- C7: for a source whose download metadata reports a duration of at most
150 seconds, the progressive endpoint runs exactly one `transcribe_audio`
operation and emits no partial event. -/
theorem C7_no_partial_below_threshold (env : StreamEnv) (vid : String) (dmeta : Metadata)
    (method : String)
    (hv : extractVideoId env.url = some vid)
    (hm : ∀ e, env.oembed = .error e → e.isYtFatal = false)
    (hc : ∃ ce, env.captions = .error ce)
    (hd : (env.ytdlp = .ok dmeta ∧ method = "ytdlp_assemblyai") ∨
      ((∃ e, env.ytdlp = .error e ∧ e.isYtFatal = false) ∧
        env.pytubefix = .ok dmeta ∧ method = "pytubefix_assemblyai"))
    (hdur : dmeta.duration ≤ partThresholdSecs) :
    (streamRun env).2 = 1 ∧ (streamRun env).1.filter SSEEvent.isPart = [] := by
  obtain ⟨pre, md, hpre, heq⟩ := streamRun_haveAudio env vid dmeta method hv hm hc hd
  have hha : streamHaveAudio md method dmeta env = fullOnlyEvents md method env.fullT := by
    unfold streamHaveAudio
    rw [if_neg (Nat.not_lt.mpr hdur)]
  have hpf : pre.filter SSEEvent.isPart = [] := by
    rw [List.filter_eq_nil_iff]
    intro a ha
    simp [(hpre a ha).1]
  rw [heq, hha]
  cases hft : env.fullT with
  | error m' => simp [fullOnlyEvents, List.filter_append, hpf, SSEEvent.isPart]
  | ok d => simp [fullOnlyEvents, List.filter_append, hpf, completeFromTD, SSEEvent.isPart]

/-- Witness for C7: yt-dlp succeeds with a 100-second source, the full
transcription succeeds; one operation, no partial events. -/
theorem C7_no_partial_below_threshold_witness :
    extractVideoId "abc12345678" = some "abc12345678" ∧
    ((streamRun
        ⟨"abc12345678", .error (.otherError "Exception" "oembed down"),
         .error (.otherError "Exception" "no captions"),
         .ok ⟨"abc12345678", "Title", "Chan", "", 100⟩,
         .error (.otherError "Exception" "unused"), .error (.otherError "Exception" "unused"),
         .ok (), .partSide, .ok ⟨"p", "ptext", none, [], none, some 60, some "en"⟩,
         .ok ⟨"f", "ftext", none, [], none, some 100, some "en"⟩⟩).2 = 1 ∧
     (streamRun
        ⟨"abc12345678", .error (.otherError "Exception" "oembed down"),
         .error (.otherError "Exception" "no captions"),
         .ok ⟨"abc12345678", "Title", "Chan", "", 100⟩,
         .error (.otherError "Exception" "unused"), .error (.otherError "Exception" "unused"),
         .ok (), .partSide, .ok ⟨"p", "ptext", none, [], none, some 60, some "en"⟩,
         .ok ⟨"f", "ftext", none, [], none, some 100, some "en"⟩⟩).1.filter SSEEvent.isPart
       = []) :=
  ⟨rfl, C7_no_partial_below_threshold
    ⟨"abc12345678", .error (.otherError "Exception" "oembed down"),
     .error (.otherError "Exception" "no captions"),
     .ok ⟨"abc12345678", "Title", "Chan", "", 100⟩,
     .error (.otherError "Exception" "unused"), .error (.otherError "Exception" "unused"),
     .ok (), .partSide, .ok ⟨"p", "ptext", none, [], none, some 60, some "en"⟩,
     .ok ⟨"f", "ftext", none, [], none, some 100, some "en"⟩⟩
    "abc12345678" ⟨"abc12345678", "Title", "Chan", "", 100⟩ "ytdlp_assemblyai"
    rfl (fun e he => by cases he; rfl) ⟨.otherError "Exception" "no captions", rfl⟩
    (Or.inl ⟨rfl, rfl⟩) (by decide)⟩

/-- C8: when the source is above the threshold but derivation of the
60-second clip fails, the stream silently degrades to full-only: exactly one
`transcribe_audio` runs, no partial event is emitted, and the trim failure is
not surfaced — the only error event that can appear is the full
transcription's own failure, carrying the transcription's message. -/
theorem C8_trim_failure_degrades (env : StreamEnv) (vid : String) (dmeta : Metadata)
    (method : String) (tm : String)
    (hv : extractVideoId env.url = some vid)
    (hm : ∀ e, env.oembed = .error e → e.isYtFatal = false)
    (hc : ∃ ce, env.captions = .error ce)
    (hd : (env.ytdlp = .ok dmeta ∧ method = "ytdlp_assemblyai") ∨
      ((∃ e, env.ytdlp = .error e ∧ e.isYtFatal = false) ∧
        env.pytubefix = .ok dmeta ∧ method = "pytubefix_assemblyai"))
    (hdur : partThresholdSecs < dmeta.duration)
    (htr : env.trim = .error tm) :
    (streamRun env).2 = 1 ∧
    (streamRun env).1.filter SSEEvent.isPart = [] ∧
    (∀ d, env.fullT = .ok d → (streamRun env).1.filter SSEEvent.isError = []) ∧
    (∀ m', env.fullT = .error m' →
      (streamRun env).1.filter SSEEvent.isError = [.errorEv m' "transcription"]) := by
  obtain ⟨pre, md, hpre, heq⟩ := streamRun_haveAudio env vid dmeta method hv hm hc hd
  have hha : streamHaveAudio md method dmeta env = fullOnlyEvents md method env.fullT := by
    unfold streamHaveAudio
    rw [if_pos hdur, htr]
  have hpf : pre.filter SSEEvent.isPart = [] := by
    rw [List.filter_eq_nil_iff]
    intro a ha
    simp [(hpre a ha).1]
  have hef : pre.filter SSEEvent.isError = [] := by
    rw [List.filter_eq_nil_iff]
    intro a ha
    simp [(hpre a ha).2.2]
  rw [heq, hha]
  refine ⟨?_, ?_, ?_, ?_⟩
  · cases hft : env.fullT <;> simp [fullOnlyEvents]
  · cases hft : env.fullT with
    | error m' => simp [fullOnlyEvents, List.filter_append, hpf, SSEEvent.isPart]
    | ok d => simp [fullOnlyEvents, List.filter_append, hpf, completeFromTD, SSEEvent.isPart]
  · intro d hft
    simp [fullOnlyEvents, hft, List.filter_append, hef, completeFromTD, SSEEvent.isError]
  · intro m' hft
    simp [fullOnlyEvents, hft, List.filter_append, hef, SSEEvent.isError]

/-- Witness for C8: trim fails on a 300-second source, the full
transcription succeeds; one operation, no partial and no error events. -/
theorem C8_trim_failure_degrades_witness :
    extractVideoId "abc12345678" = some "abc12345678" ∧
    ((streamRun
        ⟨"abc12345678", .ok ⟨"abc12345678", "Title", "Chan", "", 300⟩,
         .error (.otherError "Exception" "no captions"),
         .ok ⟨"abc12345678", "Title", "Chan", "", 300⟩,
         .error (.otherError "Exception" "unused"), .error (.otherError "Exception" "unused"),
         .error "FFmpeg trim failed: boom", .partSide,
         .ok ⟨"p", "ptext", none, [], none, some 60, some "en"⟩,
         .ok ⟨"f", "ftext", none, [], none, some 300, some "en"⟩⟩).2 = 1 ∧
     (streamRun
        ⟨"abc12345678", .ok ⟨"abc12345678", "Title", "Chan", "", 300⟩,
         .error (.otherError "Exception" "no captions"),
         .ok ⟨"abc12345678", "Title", "Chan", "", 300⟩,
         .error (.otherError "Exception" "unused"), .error (.otherError "Exception" "unused"),
         .error "FFmpeg trim failed: boom", .partSide,
         .ok ⟨"p", "ptext", none, [], none, some 60, some "en"⟩,
         .ok ⟨"f", "ftext", none, [], none, some 300, some "en"⟩⟩).1.filter SSEEvent.isPart
       = [] ∧
     (∀ d, (.ok ⟨"f", "ftext", none, [], none, some 300, some "en"⟩ : Except String TData)
          = .ok d →
        (streamRun
          ⟨"abc12345678", .ok ⟨"abc12345678", "Title", "Chan", "", 300⟩,
           .error (.otherError "Exception" "no captions"),
           .ok ⟨"abc12345678", "Title", "Chan", "", 300⟩,
           .error (.otherError "Exception" "unused"),
           .error (.otherError "Exception" "unused"),
           .error "FFmpeg trim failed: boom", .partSide,
           .ok ⟨"p", "ptext", none, [], none, some 60, some "en"⟩,
           .ok ⟨"f", "ftext", none, [], none, some 300, some "en"⟩⟩).1.filter
            SSEEvent.isError = []) ∧
     (∀ m', (.ok ⟨"f", "ftext", none, [], none, some 300, some "en"⟩ : Except String TData)
          = .error m' →
        (streamRun
          ⟨"abc12345678", .ok ⟨"abc12345678", "Title", "Chan", "", 300⟩,
           .error (.otherError "Exception" "no captions"),
           .ok ⟨"abc12345678", "Title", "Chan", "", 300⟩,
           .error (.otherError "Exception" "unused"),
           .error (.otherError "Exception" "unused"),
           .error "FFmpeg trim failed: boom", .partSide,
           .ok ⟨"p", "ptext", none, [], none, some 60, some "en"⟩,
           .ok ⟨"f", "ftext", none, [], none, some 300, some "en"⟩⟩).1.filter
            SSEEvent.isError = [.errorEv m' "transcription"])) :=
  ⟨rfl, C8_trim_failure_degrades
    ⟨"abc12345678", .ok ⟨"abc12345678", "Title", "Chan", "", 300⟩,
     .error (.otherError "Exception" "no captions"),
     .ok ⟨"abc12345678", "Title", "Chan", "", 300⟩,
     .error (.otherError "Exception" "unused"), .error (.otherError "Exception" "unused"),
     .error "FFmpeg trim failed: boom", .partSide,
     .ok ⟨"p", "ptext", none, [], none, some 60, some "en"⟩,
     .ok ⟨"f", "ftext", none, [], none, some 300, some "en"⟩⟩
    "abc12345678" ⟨"abc12345678", "Title", "Chan", "", 300⟩ "ytdlp_assemblyai"
    "FFmpeg trim failed: boom"
    rfl (fun e he => by cases he) ⟨.otherError "Exception" "no captions", rfl⟩
    (Or.inl ⟨rfl, rfl⟩) (by decide) rfl⟩

/-- C6: in a progressive resolution whose source exceeds the 150-second
threshold and whose clip derivation succeeded: (a) if the partial
transcription completes first (reporting a clip-length duration) and the
full transcription succeeds, the stream emits exactly one partial event and
exactly one complete event, with the pair `[partial, complete]` forming the
suffix of the stream (the complete event is terminal and follows the
partial); (b) if the full transcription completes first, zero partial events
are emitted. -/
theorem C6_race_event_order (env : StreamEnv) (vid : String) (dmeta : Metadata)
    (method : String)
    (hv : extractVideoId env.url = some vid)
    (hm : ∀ e, env.oembed = .error e → e.isYtFatal = false)
    (hc : ∃ ce, env.captions = .error ce)
    (hd : (env.ytdlp = .ok dmeta ∧ method = "ytdlp_assemblyai") ∨
      ((∃ e, env.ytdlp = .error e ∧ e.isYtFatal = false) ∧
        env.pytubefix = .ok dmeta ∧ method = "pytubefix_assemblyai"))
    (hdur : partThresholdSecs < dmeta.duration)
    (htr : env.trim = .ok ()) :
    (∀ pd fd np, env.firstDone = .partSide → env.partT = .ok pd →
      pd.audio_duration = some np → np ≤ partDurationSecs + 10 → env.fullT = .ok fd →
      (streamRun env).1.filter SSEEvent.isPart = [.partEv pd.text pd.audio_duration] ∧
      ∃ c, SSEEvent.isComplete c = true ∧
        (streamRun env).1.filter SSEEvent.isComplete = [c] ∧
        List.IsSuffix [SSEEvent.partEv pd.text pd.audio_duration, c] (streamRun env).1) ∧
    (∀ fd nf, env.firstDone = .fullSide → env.fullT = .ok fd →
      fd.audio_duration = some nf → partDurationSecs + 10 < nf →
      (streamRun env).1.filter SSEEvent.isPart = []) := by
  obtain ⟨pre, md, hpre, heq⟩ := streamRun_haveAudio env vid dmeta method hv hm hc hd
  have hha : streamHaveAudio md method dmeta env = raceEvents md method env := by
    unfold streamHaveAudio
    rw [if_pos hdur, htr]
  have hpf : pre.filter SSEEvent.isPart = [] := by
    rw [List.filter_eq_nil_iff]
    intro a ha
    simp [(hpre a ha).1]
  have hcf : pre.filter SSEEvent.isComplete = [] := by
    rw [List.filter_eq_nil_iff]
    intro a ha
    simp [(hpre a ha).2.1]
  constructor
  · intro pd fd np hfirst hpart hdur2 hle hfull
    have hrace : raceEvents md method env
        = ([.partEv pd.text pd.audio_duration, completeFromTD md method fd], 2) := by
      simp only [raceEvents, hfirst, hpart, classInto, hdur2, if_pos hle, afterFirstWait,
        hfull, List.singleton_append]
    have h1 : (streamRun env).1
        = pre ++ [.partEv pd.text pd.audio_duration, completeFromTD md method fd] := by
      rw [heq, hha, hrace]
    refine ⟨?_, completeFromTD md method fd, rfl, ?_, ?_⟩
    · rw [h1]
      simp [List.filter_append, hpf, completeFromTD, SSEEvent.isPart]
    · rw [h1]
      simp [List.filter_append, hcf, completeFromTD, SSEEvent.isPart, SSEEvent.isComplete]
    · rw [h1]
      exact ⟨pre, rfl⟩
  · intro fd nf hfirst hfull hdur2 hgt
    have hrace : raceEvents md method env
        = afterFirstWait md method none (some fd) (some env.partT) := by
      simp only [raceEvents, hfirst, hfull, classInto, hdur2, if_neg (Nat.not_le.mpr hgt)]
    rw [heq, hha, hrace]
    cases hp2 : env.partT with
    | error m' =>
      simp [afterFirstWait, hp2, List.filter_append, hpf, SSEEvent.isPart]
    | ok d2 =>
      simp [afterFirstWait, hp2, List.filter_append, hpf, completeFromTD, SSEEvent.isPart]

/-- Witness for C6 on a 300-second source: scenario (a) with the partial
(60 s) finishing first, and scenario (b) vacuously instantiable — both
implications applied at the same environment. -/
theorem C6_race_event_order_witness :
    extractVideoId "abc12345678" = some "abc12345678" ∧
    ((∀ pd fd np,
        (FirstDone.partSide : FirstDone) = .partSide →
        (.ok ⟨"p", "ptext", none, [], none, some 60, some "en"⟩ : Except String TData)
          = .ok pd →
        pd.audio_duration = some np → np ≤ partDurationSecs + 10 →
        (.ok ⟨"f", "ftext", none, [], none, some 300, some "en"⟩ : Except String TData)
          = .ok fd →
        (streamRun
          ⟨"abc12345678", .ok ⟨"abc12345678", "Title", "Chan", "", 300⟩,
           .error (.otherError "Exception" "no captions"),
           .ok ⟨"abc12345678", "Title", "Chan", "", 300⟩,
           .error (.otherError "Exception" "unused"),
           .error (.otherError "Exception" "unused"),
           .ok (), .partSide, .ok ⟨"p", "ptext", none, [], none, some 60, some "en"⟩,
           .ok ⟨"f", "ftext", none, [], none, some 300, some "en"⟩⟩).1.filter
            SSEEvent.isPart = [.partEv pd.text pd.audio_duration] ∧
        ∃ c, SSEEvent.isComplete c = true ∧
          (streamRun
            ⟨"abc12345678", .ok ⟨"abc12345678", "Title", "Chan", "", 300⟩,
             .error (.otherError "Exception" "no captions"),
             .ok ⟨"abc12345678", "Title", "Chan", "", 300⟩,
             .error (.otherError "Exception" "unused"),
             .error (.otherError "Exception" "unused"),
             .ok (), .partSide, .ok ⟨"p", "ptext", none, [], none, some 60, some "en"⟩,
             .ok ⟨"f", "ftext", none, [], none, some 300, some "en"⟩⟩).1.filter
              SSEEvent.isComplete = [c] ∧
          List.IsSuffix [SSEEvent.partEv pd.text pd.audio_duration, c]
            (streamRun
              ⟨"abc12345678", .ok ⟨"abc12345678", "Title", "Chan", "", 300⟩,
               .error (.otherError "Exception" "no captions"),
               .ok ⟨"abc12345678", "Title", "Chan", "", 300⟩,
               .error (.otherError "Exception" "unused"),
               .error (.otherError "Exception" "unused"),
               .ok (), .partSide, .ok ⟨"p", "ptext", none, [], none, some 60, some "en"⟩,
               .ok ⟨"f", "ftext", none, [], none, some 300, some "en"⟩⟩).1) ∧
     (∀ fd nf,
        (FirstDone.partSide : FirstDone) = .fullSide →
        (.ok ⟨"f", "ftext", none, [], none, some 300, some "en"⟩ : Except String TData)
          = .ok fd →
        fd.audio_duration = some nf → partDurationSecs + 10 < nf →
        (streamRun
          ⟨"abc12345678", .ok ⟨"abc12345678", "Title", "Chan", "", 300⟩,
           .error (.otherError "Exception" "no captions"),
           .ok ⟨"abc12345678", "Title", "Chan", "", 300⟩,
           .error (.otherError "Exception" "unused"),
           .error (.otherError "Exception" "unused"),
           .ok (), .partSide, .ok ⟨"p", "ptext", none, [], none, some 60, some "en"⟩,
           .ok ⟨"f", "ftext", none, [], none, some 300, some "en"⟩⟩).1.filter
            SSEEvent.isPart = [])) :=
  ⟨rfl, C6_race_event_order
    ⟨"abc12345678", .ok ⟨"abc12345678", "Title", "Chan", "", 300⟩,
     .error (.otherError "Exception" "no captions"),
     .ok ⟨"abc12345678", "Title", "Chan", "", 300⟩,
     .error (.otherError "Exception" "unused"), .error (.otherError "Exception" "unused"),
     .ok (), .partSide, .ok ⟨"p", "ptext", none, [], none, some 60, some "en"⟩,
     .ok ⟨"f", "ftext", none, [], none, some 300, some "en"⟩⟩
    "abc12345678" ⟨"abc12345678", "Title", "Chan", "", 300⟩ "ytdlp_assemblyai"
    rfl (fun e he => by cases he) ⟨.otherError "Exception" "no captions", rfl⟩
    (Or.inl ⟨rfl, rfl⟩) (by decide) rfl⟩

end YT
